import Mathlib

/-!
# Verification of the health-predictor session orchestration core

Shallow embedding of the TypeScript sources of the diabetes risk predictor
front end (PredictionForm, Index page, DetailedAnalysis, PredictionHistory,
RiskAssessment, WhatIfAnalysis) together with proofs about the properties
stated in the specification.

JavaScript numbers are modelled as `Option ℚ`: `none` stands for `NaN`,
`some q` for a finite value.  All comparison operators mirror JavaScript
semantics (`NaN` compares false, `NaN` is falsy, `0` is falsy).
-/

namespace HealthPredictor

/-- A JavaScript number: `none` is `NaN`, `some q` is a finite value. -/
abbrev JsNum := Option ℚ

/-- JavaScript truthiness of a number: `NaN` and `0` are falsy. -/
def jsFalsy : JsNum → Bool
  | none => true
  | some q => q == 0

/-- JavaScript `x < c` on numbers: any comparison with `NaN` is false. -/
def jsLt (x : JsNum) (c : ℚ) : Bool :=
  match x with
  | none => false
  | some q => decide (q < c)

/-- JavaScript `x > c` on numbers: any comparison with `NaN` is false. -/
def jsGt (x : JsNum) (c : ℚ) : Bool :=
  match x with
  | none => false
  | some q => decide (q > c)

/-- The five health metrics of the form state of `PredictionForm.tsx`
(interface `PredictionData` in `src/pages/Index`): each field is a
JavaScript number. -/
structure PredictionData where
  Pregnancies : JsNum
  Glucose : JsNum
  BloodPressure : JsNum
  BMI : JsNum
  Age : JsNum
deriving DecidableEq

/-- `validateForm` of `PredictionForm.tsx` (lines 44-72): returns the error
message stored via `setError`, or `none` when the function returns `true`.
The first branch embeds `!formData.Pregnancies && formData.Pregnancies !== 0`,
which on a JavaScript number holds exactly for `NaN`. -/
def validateForm (f : PredictionData) : Option String :=
  if jsFalsy f.Pregnancies && !(f.Pregnancies == some 0) then
    some "All fields are required"
  else if jsLt f.Pregnancies 0 || jsGt f.Pregnancies 20 then
    some "Pregnancies must be between 0 and 20"
  else if jsLt f.Glucose 0 || jsGt f.Glucose 300 then
    some "Glucose must be between 0 and 300 mg/dL"
  else if jsLt f.BloodPressure 0 || jsGt f.BloodPressure 200 then
    some "Blood Pressure must be between 0 and 200 mmHg"
  else if jsLt f.BMI 10 || jsGt f.BMI 70 then
    some "BMI must be between 10 and 70"
  else if jsLt f.Age 1 || jsGt f.Age 120 then
    some "Age must be between 1 and 120"
  else none

/-- The typed result of the remote `/predict` call
(interface `PredictionResult` in `PredictionForm.tsx`, lines 14-19). -/
structure PredictionResult where
  prediction : String
  probability : ℚ
  risk_score : ℚ
  confidence_level : String
deriving DecidableEq

/-- The state owned by the `Index` page (`src/unnamed/part_000`,
lines 404-406): the canonical prediction and the revision counter
`refreshTrigger` that dependent views subscribe to. -/
structure IndexState where
  currentPrediction : Option PredictionData
  refreshTrigger : ℕ
deriving DecidableEq

/-- `handlePredictionComplete` of the `Index` page (`src/unnamed/part_000`,
lines 408-411): installs the new canonical input and increments the
revision counter, which notifies the subscribed views. -/
def handlePredictionComplete (s : IndexState) (d : PredictionData) : IndexState :=
  { currentPrediction := some d, refreshTrigger := s.refreshTrigger + 1 }

/-- Observable effects of one run of `handleSubmit`
(`PredictionForm.tsx`, lines 74-119): the request bodies POSTed to
`/predict`, the final `error` state, the final `result` state, and the
resulting `Index` store. -/
structure SubmitEffects where
  requests : List PredictionData
  errorMsg : String
  result : Option PredictionResult
  store : IndexState
deriving DecidableEq

/-- `handleSubmit` of `PredictionForm.tsx` (lines 74-119).  The network is
abstracted by `outcome`: `.ok data` is a 2xx response with parsed body,
`.error msg` covers both a non-2xx response (the thrown
"Failed to get prediction") and a transport failure.  On validation
failure the function returns before any fetch; on fetch success it calls
`onPredictionComplete` (= `handlePredictionComplete` on the Index store);
on failure it only sets the error message. -/
def handleSubmit (s : IndexState) (formData : PredictionData)
    (outcome : Except String PredictionResult) : SubmitEffects :=
  match validateForm formData with
  | some msg => { requests := [], errorMsg := msg, result := none, store := s }
  | none =>
    match outcome with
    | .ok data =>
        { requests := [formData], errorMsg := "", result := some data,
          store := handlePredictionComplete s formData }
    | .error msg =>
        { requests := [formData], errorMsg := msg, result := none, store := s }

/-! ## Form input coercion and reachable form states (`PredictionForm.tsx`) -/

/-- Names of the five form fields. -/
inductive FieldName where
  | pregnancies
  | glucose
  | bloodPressure
  | bmi
  | age
deriving DecidableEq

/-- Functional update of one form field (the computed-property update
`{ ...prev, [name]: v }` in `PredictionForm.tsx`, line 40). -/
def setField (f : PredictionData) (fld : FieldName) (v : JsNum) : PredictionData :=
  match fld with
  | .pregnancies => { f with Pregnancies := v }
  | .glucose => { f with Glucose := v }
  | .bloodPressure => { f with BloodPressure := v }
  | .bmi => { f with BMI := v }
  | .age => { f with Age := v }

/-- The coercion `parseFloat(value) || 0` of `handleInputChange`
(`PredictionForm.tsx`, line 40): `parsed` is the `parseFloat` result
(`none` = `NaN`); `NaN` and `0` are falsy, so both map to `0`. -/
def coerceInput (parsed : JsNum) : JsNum :=
  some (parsed.getD 0)

/-- `handleInputChange` of `PredictionForm.tsx` (lines 38-42), restricted to
its effect on the form state. -/
def handleInputChange (f : PredictionData) (fld : FieldName) (parsed : JsNum) :
    PredictionData :=
  setField f fld (coerceInput parsed)

/-- The initial form state of `PredictionForm.tsx` (lines 27-33): all five
fields hold the number `0`. -/
def initialFormData : PredictionData :=
  { Pregnancies := some 0, Glucose := some 0, BloodPressure := some 0,
    BMI := some 0, Age := some 0 }

/-- Form states reachable in `PredictionForm.tsx`: the initial state,
any state reached by an input change, and the `resetForm` state
(lines 121-131, which restores `initialFormData`). -/
inductive ReachableForm : PredictionData → Prop
  | init : ReachableForm initialFormData
  | step (f : PredictionData) (fld : FieldName) (parsed : JsNum) :
      ReachableForm f → ReachableForm (handleInputChange f fld parsed)

/-! ## The `Index` page validator over string fields (`src/unnamed/part_000`) -/

/-- A form field held as a string (the `Index` page of
`src/unnamed/part_000` keeps all five fields as strings):
`empty` is `""` (the only falsy string), `numeric q` a string that
`parseFloat`/`parseInt` read as the finite number `q`, and `nonNumeric` a
non-empty string that parses to `NaN`. -/
inductive StrField where
  | empty
  | numeric (q : ℚ)
  | nonNumeric
deriving DecidableEq

/-- JavaScript truthiness of a string: only `""` is falsy. -/
def strFalsy : StrField → Bool
  | .empty => true
  | _ => false

/-- Truncation toward zero, the integer part kept by `parseInt` of a
numeric string. -/
def ratTrunc (q : ℚ) : ℚ :=
  if 0 ≤ q then (⌊q⌋ : ℚ) else (-(⌊-q⌋ : ℚ))

/-- `parseFloat` on a string field: `NaN` on `""` and non-numeric text. -/
def parseFloatD : StrField → JsNum
  | .empty => none
  | .numeric q => some q
  | .nonNumeric => none

/-- `parseInt` on a string field: `NaN` on `""` and non-numeric text,
truncation toward zero on a numeric string. -/
def parseIntD : StrField → JsNum
  | .empty => none
  | .numeric q => some (ratTrunc q)
  | .nonNumeric => none

/-- A candidate input of the `Index` page of `src/unnamed/part_000`
(interface `PredictionData` there, lines 10-16): five string fields. -/
structure Candidate where
  Pregnancies : StrField
  Glucose : StrField
  BloodPressure : StrField
  BMI : StrField
  Age : StrField
deriving DecidableEq

/-- `validateForm` of the `Index` page (`src/unnamed/part_000`,
lines 43-77): first the presence check
`!Pregnancies || !Glucose || !BloodPressure || !BMI || !Age`, then the
range checks on the parsed values.  Returns the `setError` message, or
`none` when the function returns `true`. -/
def validateFormIndex (c : Candidate) : Option String :=
  if strFalsy c.Pregnancies || strFalsy c.Glucose || strFalsy c.BloodPressure
      || strFalsy c.BMI || strFalsy c.Age then
    some "All fields are required"
  else
    let pregnancies := parseIntD c.Pregnancies
    let glucose := parseFloatD c.Glucose
    let bloodPressure := parseFloatD c.BloodPressure
    let bmi := parseFloatD c.BMI
    let age := parseIntD c.Age
    if jsLt pregnancies 0 || jsGt pregnancies 20 then
      some "Pregnancies must be between 0 and 20"
    else if jsLt glucose 0 || jsGt glucose 300 then
      some "Glucose must be between 0 and 300 mg/dL"
    else if jsLt bloodPressure 0 || jsGt bloodPressure 200 then
      some "Blood Pressure must be between 0 and 200 mmHg"
    else if jsLt bmi 10 || jsGt bmi 70 then
      some "BMI must be between 10 and 70"
    else if jsLt age 1 || jsGt age 120 then
      some "Age must be between 1 and 120"
    else none

/-- The first absent field of a candidate in the canonical declaration
order of the specification (Pregnancies, Glucose, BloodPressure, BMI,
Age).  Spec-side definition, used only to compare the code's single
missing-fields error against the specified `MissingField` naming. -/
def firstAbsentField (c : Candidate) : Option String :=
  if strFalsy c.Pregnancies then some "Pregnancies"
  else if strFalsy c.Glucose then some "Glucose"
  else if strFalsy c.BloodPressure then some "BloodPressure"
  else if strFalsy c.BMI then some "BMI"
  else if strFalsy c.Age then some "Age"
  else none

/-! ## Prediction history (`PredictionHistory.tsx`) -/

/-- One entry of the remote log (interface `PredictionLog` in
`PredictionHistory.tsx`, lines 11-16).  Timestamps are abstracted to
naturals ordered like the log's timestamp strings; the input snapshot is
irrelevant to the aggregate functions and omitted. -/
structure PredictionLog where
  timestamp : ℕ
  prediction : String
  probability : ℚ
deriving DecidableEq

/-- The `/history` response (interface `HistoryData` in
`PredictionHistory.tsx`, lines 18-22). -/
structure HistoryData where
  total_predictions : ℕ
  recent_predictions : List PredictionLog
deriving DecidableEq

/-- Error of an aggregate requested over zero records. -/
inductive AggError where
  | emptyInput
deriving DecidableEq

/-- The running sum `recent_predictions.reduce((acc, log) => acc + log.probability, 0)`
of `PredictionHistory.tsx`, line 156. -/
def sumProbability (logs : List PredictionLog) : ℚ :=
  logs.foldl (fun acc log => acc + log.probability) 0

/-- The average-risk-score computation of `PredictionHistory.tsx`:
the empty-history guard `!data || data.total_predictions === 0`
(line 100) yields the empty state instead of an average — rendered here
as the `EmptyInput` failure — and otherwise the component shows
`(reduce(+probability) / recent_predictions.length) * 100` (lines 152-162). -/
def averageRiskScore (d : HistoryData) : Except AggError ℚ :=
  if d.total_predictions = 0 then .error .emptyInput
  else .ok (sumProbability d.recent_predictions / (d.recent_predictions.length : ℚ) * 100)

/-- One chart point of the trend series (`PredictionHistory.tsx`,
lines 114-118): label `#index+1`, probability shown with two decimals,
the entry's timestamp. -/
structure ChartPoint where
  name : String
  probability : ℚ
  timestamp : ℕ
deriving DecidableEq

/-- JavaScript `toFixed(2)` as a rational: round to two decimal places. -/
def toFixed2 (q : ℚ) : ℚ :=
  ((round (q * 100) : ℤ) : ℚ) / 100

/-- `chartData` of `PredictionHistory.tsx` (lines 113-118): map each log
entry, with its index, to a chart point, then reverse the list. -/
def chartData (recent : List PredictionLog) : List ChartPoint :=
  (recent.enum.map (fun p =>
    { name := "#" ++ toString (p.1 + 1),
      probability := toFixed2 (p.2.probability * 100),
      timestamp := p.2.timestamp })).reverse

/-! ## Risk assessment summary (`src/unnamed/part_000`, `RiskAssessment`) -/

/-- One per-feature risk entry of the `/risk_assessment` response
(interface `RiskAssessmentData` in `src/unnamed/part_000`, lines 520-526). -/
structure RiskItem where
  feature : String
  value : ℚ
  status : String
  risk_level : String
  normal_range : String
deriving DecidableEq

/-- `highRiskCount` of `RiskAssessment` (`src/unnamed/part_000`, line 601). -/
def highRiskCount (data : List RiskItem) : ℕ :=
  (data.filter (fun d => d.risk_level == "High")).length

/-- `mediumRiskCount` of `RiskAssessment` (`src/unnamed/part_000`, line 602). -/
def mediumRiskCount (data : List RiskItem) : ℕ :=
  (data.filter (fun d => d.risk_level == "Medium")).length

/-- The low-risk count shown by `RiskAssessment`
(`src/unnamed/part_000`, line 625): `data.length - highRiskCount - mediumRiskCount`. -/
def lowRiskCount (data : List RiskItem) : ℕ :=
  data.length - highRiskCount data - mediumRiskCount data

/-! ## What-if analysis (`WhatIfAnalysis.tsx`) -/

/-- The `/what_if` response (interface `WhatIfResult` in
`WhatIfAnalysis.tsx`, lines 14-20). -/
structure WhatIfResult where
  original_prediction : String
  original_probability : ℚ
  modified_prediction : String
  modified_probability : ℚ
  probability_change : ℚ
deriving DecidableEq

/-- Modelled from the spec: the remote `what_if` operation itself is not in
the repository sources (only its caller `WhatIfAnalysis.tsx` is); the spec
fixes `probability_change = modified_probability - original_probability`
(`probabilityDelta = modifiedResult.probability - baselineResult.probability`). -/
def whatIfResponse (origPred modPred : String) (origProb modProb : ℚ) : WhatIfResult :=
  { original_prediction := origPred, original_probability := origProb,
    modified_prediction := modPred, modified_probability := modProb,
    probability_change := modProb - origProb }

/-- `isImprovement` of `WhatIfAnalysis.tsx` (line 90):
`result.probability_change < 0`, the classifier that drives the
improvement-versus-worsening rendering (lines 206-224). -/
def isImprovement (r : WhatIfResult) : Bool :=
  decide (r.probability_change < 0)

/-- One entry of the `features` array of `WhatIfAnalysis.tsx`
(lines 33-39): the feature's declared closed range and input step. -/
structure FeatureSpec where
  name : String
  min : ℚ
  max : ℚ
  step : ℚ
deriving DecidableEq

/-- The `features` array of `WhatIfAnalysis.tsx` (lines 33-39). -/
def features : List FeatureSpec :=
  [⟨"Pregnancies", 0, 20, 1⟩, ⟨"Glucose", 0, 300, 1⟩,
   ⟨"BloodPressure", 0, 200, 1⟩, ⟨"BMI", 10, 70, mkRat 1 10⟩,
   ⟨"Age", 1, 120, 1⟩]

/-- One request issued by `handleAnalyze` (`WhatIfAnalysis.tsx`,
lines 56-65): the feature name and raw value travel as query parameters,
the unchanged baseline input as the JSON body. -/
structure WhatIfRequest where
  modified_feature : String
  new_value : StrField
  body : PredictionData
deriving DecidableEq

/-- Observable effects of one run of `handleAnalyze`: the requests issued
to `/what_if` and whether the empty-value error toast was shown. -/
structure AnalyzeEffects where
  requests : List WhatIfRequest
  toastError : Bool
deriving DecidableEq

/-- `handleAnalyze` of `WhatIfAnalysis.tsx` (lines 43-87): the only local
check is `if (!newValue)` (the value is a string state, falsy exactly
when empty); any non-empty value is sent straight to the network. -/
def handleAnalyze (selectedFeature : String) (newValue : StrField)
    (initialData : PredictionData) : AnalyzeEffects :=
  if strFalsy newValue then
    { requests := [], toastError := true }
  else
    { requests := [⟨selectedFeature, newValue, initialData⟩], toastError := false }

/-! ## Session trace: the Index store and the DetailedAnalysis view -/

/-- The `/predict/detailed` response (interface `DetailedPrediction` in
`DetailedAnalysis.tsx`, lines 11-20). -/
structure DetailedPrediction where
  prediction : String
  probability : ℚ
  risk_score : ℚ
  confidence_level : String
  feature_contributions : List (String × ℚ)
  risk_factors : List String
  recommendations : List String
  timestamp : String
deriving DecidableEq

/-- Joint state of the `Index` page and the `DetailedAnalysis` view:
the revision counter and canonical input of `Index`
(`src/unnamed/part_000`, lines 404-411), the in-flight
`/predict/detailed` requests each stamped with the revision current when
issued, and the `data` state of `DetailedAnalysis`. -/
structure SessionState where
  refreshTrigger : ℕ
  currentPrediction : Option PredictionData
  pendingDetailed : List (ℕ × PredictionData)
  detailedView : Option DetailedPrediction
deriving DecidableEq

/-- The state before the first successful commit. -/
def initialSession : SessionState :=
  { refreshTrigger := 0, currentPrediction := none,
    pendingDetailed := [], detailedView := none }

/-- Session events: a successful commit (a `/predict` success followed by
`handlePredictionComplete`, after which the `DetailedAnalysis` effect
hook re-runs and issues a `/predict/detailed` fetch for the new input),
and the arrival of a `/predict/detailed` response. -/
inductive SessionEvent where
  | commit (input : PredictionData)
  | deliverDetailed (stamp : ℕ) (input : PredictionData) (resp : DetailedPrediction)

/-- One step of the session.  `commit` mirrors `handlePredictionComplete`
(`src/unnamed/part_000`, lines 408-411) plus the re-fired effect hook of
`DetailedAnalysis.tsx` (lines 31-59) issuing a fetch for the new input.
`deliverDetailed` mirrors the response handler of
`fetchDetailedPrediction` (`DetailedAnalysis.tsx`, lines 49-50): it calls
`setData(result)` unconditionally — the code compares no revision stamp
and installs whatever response arrives. -/
def sessionStep (s : SessionState) : SessionEvent → SessionState
  | .commit input =>
      { refreshTrigger := s.refreshTrigger + 1,
        currentPrediction := some input,
        pendingDetailed := s.pendingDetailed ++ [(s.refreshTrigger + 1, input)],
        detailedView := s.detailedView }
  | .deliverDetailed stamp input resp =>
      if (stamp, input) ∈ s.pendingDetailed then
        { s with detailedView := some resp,
                 pendingDetailed := s.pendingDetailed.erase (stamp, input) }
      else s

/-- Run a list of session events from the initial state. -/
def sessionRun (events : List SessionEvent) : SessionState :=
  events.foldl sessionStep initialSession

/-! ## Concrete instances used by witnesses and counterexamples -/

/-- The valid end-to-end input of the specification:
`{Pregnancies: 2, Glucose: 130, BloodPressure: 70, BMI: 28.5, Age: 45}`. -/
def inputA : PredictionData :=
  ⟨some 2, some 130, some 70, some (mkRat 57 2), some 45⟩

/-- A second valid input, distinct from `inputA`. -/
def inputB : PredictionData :=
  ⟨some 1, some 85, some 66, some (mkRat 133 5), some 31⟩

/-- A concrete `/predict` response. -/
def resultA : PredictionResult :=
  ⟨"Diabetic", mkRat 67 100, 67, "High"⟩

/-- A second concrete `/predict` response. -/
def resultB : PredictionResult :=
  ⟨"NonDiabetic", mkRat 12 100, 12, "High"⟩

/-- A concrete `/predict/detailed` response belonging to `inputA`. -/
def respA : DetailedPrediction :=
  ⟨"Diabetic", mkRat 67 100, 67, "High", [("Glucose", mkRat 45 100)],
   ["High glucose level"], ["[Diet] Reduce sugar intake"], "t1"⟩

/-- The candidate with all five fields absent (`validate({})`). -/
def allAbsent : Candidate :=
  ⟨.empty, .empty, .empty, .empty, .empty⟩

/-- A candidate with only `Age` absent and all present fields in range. -/
def ageAbsent : Candidate :=
  ⟨.numeric 2, .numeric 130, .numeric 70, .numeric (mkRat 57 2), .empty⟩

/-- A two-entry history with probabilities `0.2` and `0.8`. -/
def demoLogs : List PredictionLog :=
  [⟨1, "NonDiabetic", 1/5⟩, ⟨2, "Diabetic", 4/5⟩]

/-! ## Helper lemmas -/

/-- In every reachable form state the `Pregnancies` field is a finite
number (never `NaN`): the initial state holds `0` and every input change
stores `parseFloat(value) || 0`. -/
theorem reachable_pregnancies_isSome (f : PredictionData) (h : ReachableForm f) :
    f.Pregnancies.isSome := by
  induction h with
  | init => rfl
  | step g fld parsed _ ih =>
      cases fld
      case pregnancies => simp [handleInputChange, setField, coerceInput]
      all_goals simpa [handleInputChange, setField] using ih

/-- When `Pregnancies` is a finite number, the all-fields-required branch
of `validateForm` is not taken. -/
theorem validateForm_ne_missing_of_isSome (f : PredictionData)
    (h : f.Pregnancies.isSome) :
    validateForm f ≠ some "All fields are required" := by
  obtain ⟨q, hq⟩ := Option.isSome_iff_exists.mp h
  have hcond : (jsFalsy f.Pregnancies && !(f.Pregnancies == some 0)) = false := by
    by_cases h0 : q = 0 <;> simp [hq, jsFalsy, h0]
  unfold validateForm
  rw [hcond, if_neg (by simp : ¬ (false = true))]
  repeat' split
  all_goals decide

/-- The three tier counts of `RiskAssessment` cover the whole list when
every entry carries one of the three tiers. -/
theorem riskCounts_sum (data : List RiskItem)
    (h : ∀ d ∈ data, d.risk_level = "High" ∨ d.risk_level = "Medium"
      ∨ d.risk_level = "Low") :
    highRiskCount data + mediumRiskCount data
      + (data.filter (fun d => d.risk_level == "Low")).length = data.length := by
  induction data with
  | nil => simp [highRiskCount, mediumRiskCount]
  | cons x xs ih =>
      have hx := h x (List.mem_cons_self x xs)
      have ih2 := ih (fun d hd => h d (List.mem_cons_of_mem x hd))
      rcases hx with hx | hx | hx <;>
        simp [highRiskCount, mediumRiskCount, List.filter_cons, hx] at ih2 ⊢ <;>
        omega

/-- The accumulator sum of `PredictionHistory.tsx` equals the list sum of
the probabilities. -/
theorem sumProbability_eq (logs : List PredictionLog) :
    sumProbability logs = (logs.map (fun log => log.probability)).sum := by
  unfold sumProbability
  rw [List.sum_eq_foldl, List.foldl_map]

/-! ## Claim theorems -/

/-- C2: a commit installs the new canonical input/result pair, increments
the revision (`refreshTrigger`, the signal subscribers observe) by exactly
one, and does so only when the remote predict call succeeds; on a
scoring-service failure the store is left unchanged and the error message
is surfaced; for two consecutive successful commits the second revision is
one greater than the first. -/
theorem commit_revision_semantics (s : IndexState) (fA fB : PredictionData)
    (rA rB : PredictionResult) (m : String)
    (hA : validateForm fA = none) (hB : validateForm fB = none) :
    (handleSubmit s fA (.ok rA)).store.refreshTrigger = s.refreshTrigger + 1
    ∧ (handleSubmit s fA (.ok rA)).store.currentPrediction = some fA
    ∧ (handleSubmit s fA (.ok rA)).result = some rA
    ∧ (handleSubmit (handleSubmit s fA (.ok rA)).store fB (.error m)).store
        = (handleSubmit s fA (.ok rA)).store
    ∧ (handleSubmit (handleSubmit s fA (.ok rA)).store fB (.error m)).errorMsg = m
    ∧ (handleSubmit (handleSubmit s fA (.ok rA)).store fB (.ok rB)).store.refreshTrigger
        = (handleSubmit s fA (.ok rA)).store.refreshTrigger + 1 := by
  simp [handleSubmit, handlePredictionComplete, hA, hB]

/-- Witness for C2 at the concrete inputs `inputA`, `inputB`. -/
theorem commit_revision_semantics_witness :
    validateForm inputA = none ∧ validateForm inputB = none
    ∧ ((handleSubmit ⟨none, 0⟩ inputA (.ok resultA)).store.refreshTrigger = 0 + 1
      ∧ (handleSubmit ⟨none, 0⟩ inputA (.ok resultA)).store.currentPrediction = some inputA
      ∧ (handleSubmit ⟨none, 0⟩ inputA (.ok resultA)).result = some resultA
      ∧ (handleSubmit (handleSubmit ⟨none, 0⟩ inputA (.ok resultA)).store inputB
          (.error "Failed to get prediction")).store
          = (handleSubmit ⟨none, 0⟩ inputA (.ok resultA)).store
      ∧ (handleSubmit (handleSubmit ⟨none, 0⟩ inputA (.ok resultA)).store inputB
          (.error "Failed to get prediction")).errorMsg = "Failed to get prediction"
      ∧ (handleSubmit (handleSubmit ⟨none, 0⟩ inputA (.ok resultA)).store inputB
          (.ok resultB)).store.refreshTrigger
          = (handleSubmit ⟨none, 0⟩ inputA (.ok resultA)).store.refreshTrigger + 1) :=
  ⟨by decide, by decide,
    commit_revision_semantics ⟨none, 0⟩ inputA inputB resultA resultB
      "Failed to get prediction" (by decide) (by decide)⟩

/-- C3: when validation fails, `handleSubmit` returns before the fetch —
no request is issued to the scoring service, the store is untouched, and
the validation message is surfaced. -/
theorem validation_failure_blocks_network (s : IndexState) (f : PredictionData)
    (outcome : Except String PredictionResult) (msg : String)
    (h : validateForm f = some msg) :
    (handleSubmit s f outcome).requests = []
    ∧ (handleSubmit s f outcome).store = s
    ∧ (handleSubmit s f outcome).errorMsg = msg := by
  simp [handleSubmit, h]

/-- Witness for C3 at the all-zero initial form state, which fails the
BMI range check. -/
theorem validation_failure_blocks_network_witness :
    validateForm initialFormData = some "BMI must be between 10 and 70"
    ∧ ((handleSubmit ⟨none, 0⟩ initialFormData (.ok resultA)).requests = []
      ∧ (handleSubmit ⟨none, 0⟩ initialFormData (.ok resultA)).store = ⟨none, 0⟩
      ∧ (handleSubmit ⟨none, 0⟩ initialFormData (.ok resultA)).errorMsg
          = "BMI must be between 10 and 70") :=
  ⟨by decide,
    validation_failure_blocks_network ⟨none, 0⟩ initialFormData (.ok resultA)
      "BMI must be between 10 and 70" (by decide)⟩

/-- C5: `probability_change` of a what-if scenario equals the modified
probability minus the baseline probability, and the improvement
classification of `WhatIfAnalysis.tsx` holds exactly when that delta is
strictly negative; baseline `0.30` to modified `0.22` yields `-0.08`, an
improvement, and `0.30` to `0.41` yields `+0.11`, worsened. -/
theorem probabilityDelta_sign_convention :
    (∀ (op mp : String) (po pm : ℚ),
      (whatIfResponse op mp po pm).probability_change = pm - po
      ∧ (isImprovement (whatIfResponse op mp po pm) = true ↔ pm - po < 0))
    ∧ (whatIfResponse "Diabetic" "NonDiabetic" (30/100) (22/100)).probability_change
        = -(8/100)
    ∧ isImprovement (whatIfResponse "Diabetic" "NonDiabetic" (30/100) (22/100)) = true
    ∧ (whatIfResponse "Diabetic" "Diabetic" (30/100) (41/100)).probability_change
        = 11/100
    ∧ isImprovement (whatIfResponse "Diabetic" "Diabetic" (30/100) (41/100)) = false := by
  refine ⟨fun op mp po pm => ⟨rfl, by simp [isImprovement, whatIfResponse, sub_neg]⟩,
    ?_, ?_, ?_, ?_⟩ <;> norm_num [whatIfResponse, isImprovement]

/-- C9: when every entry carries one of the three tiers, the displayed
low count equals the number of `Low` entries and the three counts sum to
the length of the list. -/
theorem summarizeRiskTiers_partition (data : List RiskItem)
    (h : ∀ d ∈ data, d.risk_level = "High" ∨ d.risk_level = "Medium"
      ∨ d.risk_level = "Low") :
    lowRiskCount data = (data.filter (fun d => d.risk_level == "Low")).length
    ∧ highRiskCount data + mediumRiskCount data + lowRiskCount data = data.length := by
  have hs := riskCounts_sum data h
  unfold lowRiskCount
  omega

/-- Witness for C9 at a concrete two-entry assessment. -/
theorem summarizeRiskTiers_partition_witness :
    (∀ d ∈ [(⟨"Glucose", 130, "Elevated", "High", "70-100 mg/dL"⟩ : RiskItem),
        ⟨"BMI", 28, "Overweight", "Low", "18.5-24.9"⟩],
      d.risk_level = "High" ∨ d.risk_level = "Medium" ∨ d.risk_level = "Low")
    ∧ (lowRiskCount [(⟨"Glucose", 130, "Elevated", "High", "70-100 mg/dL"⟩ : RiskItem),
        ⟨"BMI", 28, "Overweight", "Low", "18.5-24.9"⟩]
        = ([(⟨"Glucose", 130, "Elevated", "High", "70-100 mg/dL"⟩ : RiskItem),
            ⟨"BMI", 28, "Overweight", "Low", "18.5-24.9"⟩].filter
              (fun d => d.risk_level == "Low")).length
      ∧ highRiskCount [(⟨"Glucose", 130, "Elevated", "High", "70-100 mg/dL"⟩ : RiskItem),
          ⟨"BMI", 28, "Overweight", "Low", "18.5-24.9"⟩]
        + mediumRiskCount [(⟨"Glucose", 130, "Elevated", "High", "70-100 mg/dL"⟩ : RiskItem),
            ⟨"BMI", 28, "Overweight", "Low", "18.5-24.9"⟩]
        + lowRiskCount [(⟨"Glucose", 130, "Elevated", "High", "70-100 mg/dL"⟩ : RiskItem),
            ⟨"BMI", 28, "Overweight", "Low", "18.5-24.9"⟩]
        = [(⟨"Glucose", 130, "Elevated", "High", "70-100 mg/dL"⟩ : RiskItem),
            ⟨"BMI", 28, "Overweight", "Low", "18.5-24.9"⟩].length) :=
  ⟨by decide,
    summarizeRiskTiers_partition
      [⟨"Glucose", 130, "Elevated", "High", "70-100 mg/dL"⟩,
       ⟨"BMI", 28, "Overweight", "Low", "18.5-24.9"⟩] (by decide)⟩

/-- C10: every input change coerces to a finite number, so in every
reachable form state the all-fields-required branch of `validateForm` is
unreachable, and submitting the untouched all-default form fails with the
BMI out-of-range error, never a missing-field error. -/
theorem missing_branch_unreachable (f : PredictionData) (h : ReachableForm f) :
    validateForm f ≠ some "All fields are required"
    ∧ validateForm initialFormData = some "BMI must be between 10 and 70" :=
  ⟨validateForm_ne_missing_of_isSome f (reachable_pregnancies_isSome f h), by decide⟩

/-- Witness for C10 at the initial (all-default) form state. -/
theorem missing_branch_unreachable_witness :
    validateForm initialFormData ≠ some "All fields are required"
    ∧ validateForm initialFormData = some "BMI must be between 10 and 70" :=
  missing_branch_unreachable initialFormData ReachableForm.init

/-- C6 counterexample: the missing-fields error is one fixed message.
The candidate whose first absent field is `Pregnancies` and the candidate
whose first absent field is `Age` receive the identical error value, so
the error cannot name the first absent field. -/
theorem missing_field_error_names_no_field :
    validateFormIndex allAbsent = some "All fields are required"
    ∧ validateFormIndex ageAbsent = some "All fields are required"
    ∧ firstAbsentField allAbsent = some "Pregnancies"
    ∧ firstAbsentField ageAbsent = some "Age"
    ∧ validateFormIndex allAbsent = validateFormIndex ageAbsent := by
  decide

/-- C6 amended: whenever any field is absent — in particular for the
all-absent candidate — the validator fails with the single generic
missing-fields message before any numeric or range check runs; the
message does not identify the absent field. -/
theorem missing_check_runs_first (c : Candidate)
    (h : firstAbsentField c ≠ none) :
    validateFormIndex c = some "All fields are required" := by
  unfold firstAbsentField at h
  unfold validateFormIndex
  cases hp : strFalsy c.Pregnancies <;> cases hg : strFalsy c.Glucose <;>
    cases hb : strFalsy c.BloodPressure <;> cases hm : strFalsy c.BMI <;>
    cases ha : strFalsy c.Age <;> simp_all

/-- Witness for C6 at the all-absent candidate. -/
theorem missing_check_runs_first_witness :
    firstAbsentField allAbsent ≠ none
    ∧ validateFormIndex allAbsent = some "All fields are required" :=
  ⟨by decide, missing_check_runs_first allAbsent (by decide)⟩

/-- C7: over consistent history data (the total is zero exactly when the
entry list is empty), the average risk score fails with `EmptyInput` on an
empty history instead of dividing by zero, on a non-empty history equals
the arithmetic mean of `probability * 100` over the entries, and on the
two-entry history with probabilities `0.2` and `0.8` equals exactly `50`. -/
theorem averageRiskScore_mean_and_empty (d : HistoryData)
    (hc : d.total_predictions = 0 ↔ d.recent_predictions = []) :
    (d.recent_predictions = [] → averageRiskScore d = .error .emptyInput)
    ∧ (d.recent_predictions ≠ [] →
        averageRiskScore d
          = .ok ((d.recent_predictions.map (fun log => log.probability * 100)).sum
              / (d.recent_predictions.length : ℚ)))
    ∧ averageRiskScore ⟨2, demoLogs⟩ = .ok 50 := by
  refine ⟨fun he => ?_, fun hne => ?_, ?_⟩
  · unfold averageRiskScore
    rw [if_pos (hc.mpr he)]
  · unfold averageRiskScore
    rw [if_neg (fun h0 => hne (hc.mp h0))]
    have hmap : (d.recent_predictions.map (fun log => log.probability * 100)).sum
        = (d.recent_predictions.map (fun log => log.probability)).sum * 100 := by
      rw [← List.sum_map_mul_right]
    rw [hmap, sumProbability_eq, div_mul_eq_mul_div, mul_comm]
  · norm_num [averageRiskScore, sumProbability, demoLogs, List.foldl]

/-- Witness for C7 at the concrete two-entry history. -/
theorem averageRiskScore_mean_and_empty_witness :
    ((⟨2, demoLogs⟩ : HistoryData).total_predictions = 0
      ↔ (⟨2, demoLogs⟩ : HistoryData).recent_predictions = [])
    ∧ averageRiskScore ⟨2, demoLogs⟩ = .ok 50 :=
  ⟨by simp [demoLogs], (averageRiskScore_mean_and_empty ⟨2, demoLogs⟩ (by simp [demoLogs])).2.2⟩

/-- C8 counterexample: `chartData` reverses the log order.  For the
two-entry history (timestamps 1 then 2) the first output point carries
timestamp 2 while the first input entry carries timestamp 1, so the i-th
output point does not correspond to the i-th input entry. -/
theorem chartData_reverses_order :
    chartData demoLogs = [⟨"#2", 80, 2⟩, ⟨"#1", 20, 1⟩]
    ∧ (chartData demoLogs)[0]?.map ChartPoint.timestamp = some 2
    ∧ demoLogs[0]?.map PredictionLog.timestamp = some 1 := by
  have h : chartData demoLogs = [⟨"#2", 80, 2⟩, ⟨"#1", 20, 1⟩] := by
    simp only [chartData, demoLogs, List.enum, List.enumFrom, List.map, List.reverse]
    norm_num [toFixed2, round_eq]
    exact ⟨by rfl, by rfl⟩
  exact ⟨h, by rw [h]; rfl, rfl⟩

/-- C8 amended: `chartData` maps the i-th log entry to the point labeled
`#i+1` with `probabilityPercent = round(probability*100, 2)` and the
entry's timestamp, and then reverses the list, so the output is in
reverse chronological order: position i of the reversed output — that is,
position `n-1-i` of the output itself — corresponds to the i-th input
entry. -/
theorem chartData_reverse_chronological (recent : List PredictionLog) (i : ℕ) :
    (chartData recent).length = recent.length
    ∧ (chartData recent).reverse[i]?
      = (recent[i]?.map fun log =>
          ({ name := "#" ++ toString (i + 1),
             probability := toFixed2 (log.probability * 100),
             timestamp := log.timestamp } : ChartPoint)) := by
  constructor
  · simp [chartData]
  · unfold chartData
    rw [List.reverse_reverse, List.getElem?_map, List.getElem?_enum]
    cases recent[i]? <;> rfl

/-- C4 counterexample: with the override value `500` for `BMI` — outside
the declared closed range `[10, 70]` of the `features` table, and rejected
by the Input Validator on the modified input — `handleAnalyze` still
issues the network request, with the unchanged baseline as body; no
modified input is built and no validation precedes the call. -/
theorem whatIf_out_of_range_reaches_network :
    (handleAnalyze "BMI" (.numeric 500) inputA).requests
      = [⟨"BMI", .numeric 500, inputA⟩]
    ∧ (handleAnalyze "BMI" (.numeric 500) inputA).toastError = false
    ∧ (features.filter (fun f => f.name == "BMI")).map FeatureSpec.max = [70]
    ∧ ¬ ((500 : ℚ) ≤ 70)
    ∧ validateForm (setField inputA .bmi (some 500))
        = some "BMI must be between 10 and 70" := by
  refine ⟨by decide, by decide, by decide, by norm_num, by decide⟩

/-- C4 amended: `handleAnalyze` performs no range validation and builds no
modified input locally.  Its only check is for an empty override value
(error toast, no request); any non-empty value is sent in exactly one
`what_if` request carrying the feature name and raw value as query
parameters and the unchanged baseline as body. -/
theorem handleAnalyze_no_local_validation (feature : String) (v : StrField)
    (baseline : PredictionData) (hv : strFalsy v = false) :
    (handleAnalyze feature v baseline).requests = [⟨feature, v, baseline⟩]
    ∧ (handleAnalyze feature v baseline).toastError = false
    ∧ (handleAnalyze feature .empty baseline).requests = []
    ∧ (handleAnalyze feature .empty baseline).toastError = true := by
  simp [handleAnalyze, hv, show strFalsy .empty = true from rfl]

/-- Witness for C4 at the concrete out-of-range override. -/
theorem handleAnalyze_no_local_validation_witness :
    strFalsy (StrField.numeric 500) = false
    ∧ ((handleAnalyze "BMI" (.numeric 500) inputA).requests
        = [⟨"BMI", .numeric 500, inputA⟩]
      ∧ (handleAnalyze "BMI" (.numeric 500) inputA).toastError = false
      ∧ (handleAnalyze "BMI" .empty inputA).requests = []
      ∧ (handleAnalyze "BMI" .empty inputA).toastError = true) :=
  ⟨rfl, handleAnalyze_no_local_validation "BMI" (.numeric 500) inputA rfl⟩

/-- C1 counterexample: after `commit(inputA)` then `commit(inputB)` the
store's revision is 2, yet delivering the `/predict/detailed` response
that belongs to `inputA` — stamped with revision 1 — changes the
dependent view from `none` to that stale response: it is not discarded. -/
theorem stale_response_overwrites_view :
    (sessionRun [.commit inputA, .commit inputB]).refreshTrigger = 2
    ∧ (sessionRun [.commit inputA, .commit inputB]).pendingDetailed
        = [(1, inputA), (2, inputB)]
    ∧ (sessionRun [.commit inputA, .commit inputB]).detailedView = none
    ∧ (sessionRun [.commit inputA, .commit inputB,
        .deliverDetailed 1 inputA respA]).detailedView = some respA
    ∧ (1 : ℕ) ≠ 2 := by
  decide

/-- C1 amended: the dependent view installs every response on arrival,
whatever its stamp: even when the response's revision differs from the
store's current revision, delivery sets the view to that response and the
store's revision is untouched — last writer wins, there is no staleness
discard. -/
theorem deliverDetailed_applies_unconditionally (s : SessionState) (stamp : ℕ)
    (input : PredictionData) (resp : DetailedPrediction)
    (hpend : (stamp, input) ∈ s.pendingDetailed)
    (_hstale : stamp ≠ s.refreshTrigger) :
    (sessionStep s (.deliverDetailed stamp input resp)).detailedView = some resp
    ∧ (sessionStep s (.deliverDetailed stamp input resp)).refreshTrigger
        = s.refreshTrigger := by
  simp [sessionStep, hpend]

/-- Witness for C1's amended claim, on the trace of the counterexample. -/
theorem deliverDetailed_applies_unconditionally_witness :
    ((1 : ℕ), inputA) ∈ (sessionRun [.commit inputA, .commit inputB]).pendingDetailed
    ∧ (1 : ℕ) ≠ (sessionRun [.commit inputA, .commit inputB]).refreshTrigger
    ∧ ((sessionStep (sessionRun [.commit inputA, .commit inputB])
          (.deliverDetailed 1 inputA respA)).detailedView = some respA
      ∧ (sessionStep (sessionRun [.commit inputA, .commit inputB])
          (.deliverDetailed 1 inputA respA)).refreshTrigger
          = (sessionRun [.commit inputA, .commit inputB]).refreshTrigger) :=
  ⟨by decide, by decide,
    deliverDetailed_applies_unconditionally (sessionRun [.commit inputA, .commit inputB])
      1 inputA respA (by decide) (by decide)⟩

end HealthPredictor
